import Mathlib

/-!
Verification of the eve-elastic data layer (src/eve_elastic/elastic.py)
against its natural-language specification.

The Python values flowing through the layer (parsed JSON bodies, Python
dicts and lists, `None`, parsed datetimes) are embedded as the inductive
type `J` below.  Python `None` and JSON `null` are the same runtime value
in Python (`json.loads` maps JSON null to `None`), so both are `J.null`.
Parsed `datetime` objects that the result normalizer stores into documents
are `J.date` with an abstract integer timestamp.

Dictionaries are association lists; lookups take the first binding, which
agrees with Python dicts (whose keys are unique).
-/

set_option autoImplicit false

namespace EveElastic

/-- Embedded Python/JSON value domain. -/
inductive J where
  | null
  | b (bool : Bool)
  | n (num : Int)
  | s (str : String)
  | arr (elts : List J)
  | obj (entries : List (String × J))
  | date (stamp : Int)
  deriving Repr

/-- Python truthiness (`bool(v)`): `None`, `False`, `0`, `""`, `[]`, `{}`
are falsy, everything else (including datetimes) is truthy. -/
def pyTruthy : J → Bool
  | .null => false
  | .b x => x
  | .n k => k != 0
  | .s str => str ≠ ""
  | .arr xs => !xs.isEmpty
  | .obj xs => !xs.isEmpty
  | .date _ => true

/-- First binding of `k` in an association list (Python dict keys are
unique, so this is the dict lookup). -/
def lookupEntry : List (String × J) → String → Option J
  | [], _ => none
  | (k', v) :: rest, k => if k' == k then some v else lookupEntry rest k

/-- `d.get(k)` on a dict without a default: `none` when the key is absent
(or the value is not a dict). A stored `None` comes back as `some J.null`. -/
def J.get : J → String → Option J
  | .obj entries, k => lookupEntry entries k
  | _, _ => none

/-- `d.get(k, None)` / guarded `d[k]`: Python collapses "absent" and
"stored `None`" to `None` here, which is `J.null` for us. -/
def J.getd (o : J) (k : String) : J :=
  (o.get k).getD .null

/-- `k in d` (dict key membership; false on non-dicts). -/
def J.hasKey (o : J) (k : String) : Bool :=
  match o with
  | .obj es => es.any (fun e => e.1 == k)
  | _ => false

/-- Helper for `J.set`: replace the first binding of `k` or append. -/
def setEntry : List (String × J) → String → J → List (String × J)
  | [], k, v => [(k, v)]
  | (k', v') :: rest, k, v =>
    if k' == k then (k, v) :: rest else (k', v') :: setEntry rest k v

/-- `d[k] = v`. Dict assignment; a non-dict is returned unchanged (the
code only assigns into dicts). -/
def J.set (o : J) (k : String) (v : J) : J :=
  match o with
  | .obj es => .obj (setEntry es k v)
  | other => other

/-- `d.setdefault(k, v)`: assign only when the key is absent. -/
def J.setdefault (o : J) (k : String) (v : J) : J :=
  if o.hasKey k then o else o.set k v

/-- `d.pop(k, None)`: drop every binding of `k` (dicts have at most one). -/
def J.pop (o : J) (k : String) : J :=
  match o with
  | .obj es => .obj (es.filter (fun e => e.1 ≠ k))
  | other => other

/-- `v is None`. -/
def J.isNull : J → Bool
  | .null => true
  | _ => false

/-- `v is not None`, for the filter-list comprehensions in `set_filters`. -/
def notNone (v : J) : Bool := !v.isNull

/-- The whitespace characters `str.strip()` removes. -/
def wsChar (c : Char) : Bool :=
  c == ' ' || c == '\t' || c == '\n' || c == '\r'

/-- Strip characters satisfying `p` from both ends of a char list. -/
def stripChars (p : Char → Bool) (cs : List Char) : List Char :=
  (((cs.dropWhile p).reverse).dropWhile p).reverse

/-- Is the first char list an initial segment of the second? -/
def initSeg : List Char → List Char → Bool
  | [], _ => true
  | _ :: _, [] => false
  | a :: as, b :: bs => a == b && initSeg as bs

/-- Does the second list contain the first as a contiguous sublist? -/
def containsSub (pat : List Char) : List Char → Bool
  | [] => pat.isEmpty
  | c :: rest => initSeg pat (c :: rest) || containsSub pat rest

/-- Python substring test `sub in s`. -/
def strContains (s sub : String) : Bool :=
  containsSub sub.data s.data

/-- Embedded Python exceptions that the layer raises or catches. -/
inductive PyErr where
  | typeError
  | valueError
  | parserError
  | indexError
  | keyError
  deriving Repr, DecidableEq

/-- `int(v)` for the toggle predicates: parses strings (optionally signed
decimal, surrounding whitespace allowed), accepts ints and bools, and
fails (`none` = raises) on everything else. -/
def pyInt : J → Option Int
  | .n k => some k
  | .b bl => some (if bl then 1 else 0)
  | .s str =>
    let t := stripChars wsChar str.data
    let (sign, digits) :=
      match t with
      | '-' :: rest => ((-1 : Int), rest)
      | '+' :: rest => ((1 : Int), rest)
      | other => ((1 : Int), other)
    if !digits.isEmpty && digits.all (fun c => c.isDigit) then
      some (sign * (Int.ofNat (digits.foldl (fun acc c => acc * 10 + (c.toNat - '0'.toNat)) 0)))
    else none
  | _ => none

/-!
### Query builder (elastic.py lines 140-179, 461-554, 947-971)
-/

/-- `set_filters(query, must_filter, base_filters)` (elastic.py:140-162).
Drops `None` entries from both lists, lets a `filter` clause already
present on `query['query']` replace the base filter list, creates the
`bool` container only when it is missing and some clause exists, and
stores the non-empty `must` / `filter` lists inside it.  Faithful to the
source's dict mutations, expressed functionally. -/
def set_filters (query : J) (must_filter : List J) (base_filters : List J) : J :=
  let filters : J := J.arr (base_filters.filter notNone)
  let must_filters : J := J.arr (must_filter.filter notNone)
  let inner := query.getd "query"
  let query_filter := inner.getd "filter"
  let filters := if notNone query_filter then query_filter else filters
  let inner :=
    if !inner.hasKey "bool" && (pyTruthy must_filters || pyTruthy filters) then
      inner.set "bool" (J.obj [])
    else inner
  let inner :=
    if pyTruthy must_filters then
      inner.set "bool" ((inner.getd "bool").set "must" must_filters)
    else inner
  let inner :=
    if pyTruthy filters then
      inner.set "bool" ((inner.getd "bool").set "filter" filters)
    else inner
  query.set "query" inner

/-- `set_sort(query, sort)` (elastic.py:165-179): each `(key, dir)` pair
becomes `{key: {order: asc|desc, unmapped_type: long}}`. -/
def set_sort (query : J) (sort : List (String × Int)) : J :=
  query.set "sort" (J.arr (sort.map (fun ks =>
    J.obj [(ks.1, J.obj [("order", J.s (if ks.2 > 0 then "asc" else "desc")),
                         ("unmapped_type", J.s "long")])])))

/-- `_is_phrase_search(query_string)` (elastic.py:954-956): non-empty
after `strip()` and both starting and ending with a double quote. -/
def is_phrase_search (query_string : String) : Bool :=
  let clean_query := stripChars wsChar query_string.data
  !clean_query.isEmpty
    && (match clean_query with | c :: _ => c == '"' | [] => false)
    && (match clean_query.reverse with | c :: _ => c == '"' | [] => false)

/-- `_get_phrase(query_string)` (elastic.py:958-959): `strip()` then
`strip('"')` — drop the surrounding whitespace, then every leading and
trailing quote character. -/
def get_phrase (query_string : String) : String :=
  String.mk (stripChars (fun c => c == '"') (stripChars wsChar query_string.data))

/-- `_build_query_string(q, default_field, default_operator)`
(elastic.py:947-967).  A quoted term becomes a `match_phrase` on the
catch-all field `all` with the quote characters stripped; anything else
becomes a `query_string` clause carrying only `query` and
`default_operator` — the line adding a default-field key is commented
out in the source, so the `default_field` argument is accepted but
unused. -/
def build_query_string (q : String) (default_field : Option String)
    (default_operator : String) : J :=
  let _ := default_field
  if is_phrase_search q then
    J.obj [("match_phrase", J.obj [("all", J.s (get_phrase q))])]
  else
    J.obj [("query_string", J.obj [("query", J.s q),
                                   ("default_operator", J.s default_operator)])]

/-- `_build_lookup_filter(lookup)` (elastic.py:970-971): one `term`
filter per key/value pair of the sub-resource lookup. -/
def build_lookup_filter (lookup : J) : List J :=
  match lookup with
  | .obj es => es.map (fun kv => J.obj [("term", J.obj [(kv.1, kv.2)])])
  | _ => []

/-- Request query-string parameters consumed by `find` and the toggle
predicates.  Parameters that `find` immediately feeds to `json.loads`
(`source`, `filter`, `filters`) are modelled as the parsed values; `q`,
`df` and `default_operator` are used as raw strings; the toggle
parameters (`aggregations`, `es_highlight`, `projections`) keep their raw
request value because the predicates parse them themselves.  A `none`
field means the key is absent from the request. -/
structure Args where
  source : Option J := none
  q : Option String := none
  df : Option String := none
  default_operator : Option String := none
  filter : Option J := none
  filters : Option (List J) := none
  aggregations : Option J := none
  es_highlight : Option J := none
  projections : Option J := none

/-- The slice of eve's `ParsedRequest` that `find` reads.  `args = none`
models a falsy `req.args` (`None` or an empty dict); `sort = some l`
models a truthy `req.sort` string whose `ast.literal_eval` result is `l`;
`whereClause = some w` models a truthy `req.where` that one of the two
parsers (JSON, then the schema-aware expression parser) turned into `w`. -/
structure Req where
  args : Option Args := none
  sort : Option (List (String × Int)) := none
  max_results : Nat := 0
  page : Nat := 1
  whereClause : Option J := none

/-- The per-resource datasource configuration (`config.SOURCES[resource]`)
that `find` consults: static filter, no-arg filter callback, facets,
aggregations, highlight-builder callback, and the datasource default sort
(`datasource[3]`, used by `_default_sort`). -/
structure SourceConfig where
  elastic_filter : J := J.null
  elastic_filter_callback : Option (Unit → J) := none
  facets : Option J := none
  aggregations : Option J := none
  es_highlight : Option (J → J) := none
  default_sort : Option (List (String × Int)) := none

/-- The `source` handling at the top of `find` (elastic.py:467-481):
returns the initial query body and the extracted `source_filter`.
When the raw override carries `query.filter`, the filter is pulled out
and `query['query']` is reset to an empty bool shell (other top-level
keys of the override survive); otherwise the whole override's `query`
clause becomes the `source_filter` and the body is reset completely. -/
def find_source_step (source : Option J) : J × J :=
  match source with
  | some src =>
    let q := (src.get "query").getD (J.obj [])
    if (q.get "filter").isSome then
      (src.set "query" (J.obj [("bool", J.obj [])]),
       if pyTruthy q then q.getd "filter" else J.null)
    else
      (J.obj [("query", J.obj [("bool", J.obj [])])], (src.get "query").getD J.null)
  | none => (J.obj [("query", J.obj [("bool", J.obj [])])], J.null)

/-- Is `args.get('q', None)` truthy (a non-empty string)? -/
def qTruthy (q : Option String) : Bool :=
  match q with
  | some str => str ≠ ""
  | none => false

/-- The `must_filter` list assembled by `find` (elastic.py:483-510), in
source order: the free-text clause, the sub-resource lookup filter (or
`None`), the parsed ad-hoc `filter` parameter (or `None`), and the
ad-hoc `filters` list. -/
def find_must_filter (args : Args) (sub_resource_lookup : J) : List J :=
  (if qTruthy args.q then
    [build_query_string ((args.q).getD "") (some ((args.df).getD "all"))
      ((args.default_operator).getD "OR")]
   else [])
  ++ [if pyTruthy sub_resource_lookup then J.arr (build_lookup_filter sub_resource_lookup)
      else J.null]
  ++ [(args.filter).getD J.null]
  ++ ((args.filters).getD [])

/-- The base `filters` list assembled by `find` (elastic.py:503-519):
resource static filter, filter-callback result (`noop` yields `None`),
the extracted source filter, and the parsed where clause as a `term`
filter. -/
def find_base_filters (source_config : SourceConfig) (req : Req) (source_filter : J) :
    List J :=
  [source_config.elastic_filter,
   (match source_config.elastic_filter_callback with
    | some cb => cb ()
    | none => J.null),
   source_filter]
  ++ (match req.whereClause with
      | some w => [J.obj [("term", w)]]
      | none => [])

/-- `should_aggregate(req)` (elastic.py:556-565): the auto-aggregation
config short-circuits; otherwise `int()` of the `aggregations` parameter
decides, and any exception inside the `try` (absent parameter, non-numeric
value) gives `False`. -/
def should_aggregate (auto_aggregations : Bool) (req : Req) : Bool :=
  if auto_aggregations then true
  else
    match req.args with
    | none => false
    | some args =>
      match args.aggregations with
      | some v =>
        match pyInt v with
        | some k => k ≠ 0
        | none => false
      | none => false

/-- `should_highlight(req)` (elastic.py:567-575): `int()` of the
`es_highlight` parameter (default `0`); exceptions give `False`. -/
def should_highlight (req : Req) : Bool :=
  match req.args with
  | none => false
  | some args =>
    match args.es_highlight with
    | some v =>
      match pyInt v with
      | some k => k ≠ 0
      | none => false
    | none => false

/-- `should_project(req)` (elastic.py:577-585): returns
`req.args and json.loads(req.args.get('projections', []))`, with every
exception mapped to `False`.  `json.loads` is an oracle parameter so the
result covers every behaviour of the external JSON parser; an absent
parameter makes `json.loads` see the `[]` default and raise `TypeError`. -/
def should_project (json_loads : J → Except PyErr J) (req : Req) : J :=
  match req.args with
  | none => J.b false
  | some args =>
    match args.projections with
    | some v =>
      match json_loads v with
      | .ok j => j
      | .error _ => J.b false
    | none => J.b false

/-- The sort and paging statements of `find` (elastic.py:490-501): the
request sort (already literal-eval'd), else the datasource default sort,
both skipped when the body (from a raw override) already carries `sort`;
then `size` and `from` via `setdefault`. -/
def find_sort_page (source_config : SourceConfig) (req : Req) (query : J) : J :=
  let query :=
    if query.hasKey "sort" then query
    else
      match req.sort with
      | some sort => set_sort query sort
      | none =>
        match source_config.default_sort with
        | some ds => if ds ≠ [] then set_sort query ds else query
        | none => query
  let query :=
    if req.max_results ≠ 0 then query.setdefault "size" (J.n (Int.ofNat req.max_results))
    else query
  if req.page > 1 then
    query.setdefault "from" (J.n (Int.ofNat ((req.page - 1) * req.max_results)))
  else query

/-- The facets / aggregations / highlight statements of `find`
(elastic.py:523-536), applied after `set_filters`. -/
def find_post_steps (auto_aggregations : Bool) (source_config : SourceConfig)
    (req : Req) (query : J) : J :=
  let query :=
    match source_config.facets with
    | some f => query.set "facets" f
    | none => query
  let query :=
    match source_config.aggregations with
    | some aggs => if should_aggregate auto_aggregations req then query.set "aggs" aggs else query
    | none => query
  match source_config.es_highlight with
  | some cb =>
    if should_highlight req then
      let highlights := cb (query.getd "query")
      if pyTruthy highlights then
        query.set "highlight" (highlights.setdefault "require_field_match" (J.b false))
      else query
    else query
  | none => query

/-- The query document assembled by `find` (elastic.py:461-541), up to
the point where the body is handed to the engine client.  Mirrors the
source statement by statement: source override, free-text clause, sort
and paging, the two filter lists, `set_filters`, then facets /
aggregations / highlight. -/
def findBuildQuery (auto_aggregations : Bool) (source_config : SourceConfig)
    (req : Req) (sub_resource_lookup : J) : J :=
  let args := (req.args).getD {}
  let step := find_source_step args.source
  let query := find_sort_page source_config req step.1
  let query := set_filters query (find_must_filter args sub_resource_lookup)
    (find_base_filters source_config req step.2)
  find_post_steps auto_aggregations source_config req query

/-- The `bool` object produced by `set_filters` when it starts from an
empty `bool` shell: a `must` key only for a truthy must list, then a
`filter` key only for a truthy filter value. -/
def bool_clause (must_filters filters : J) : J :=
  let x := J.obj []
  let x := if pyTruthy must_filters then x.set "must" must_filters else x
  if pyTruthy filters then x.set "filter" filters else x

/-- Is the value a Python dict? -/
def J.isObj : J → Bool
  | .obj _ => true
  | _ => false

/-!
### Result normalizer (elastic.py lines 25-63, 110-137, 759-769)

`ciso8601.parse_datetime` and `arrow.get(...).datetime` are external
library calls, passed in as oracle functions `J → Except PyErr J`
(`.ok J.null` models the old ciso8601 behaviour of returning `None` on а
string it cannot parse; `.error e` models a raised exception).
-/

/-- `v[0]` as evaluated inside the `except TypeError` handler of
`parse_date`: first list element, first character of a string, and the
Python error for the remaining shapes (`IndexError` on empty sequences,
`KeyError` on dicts, `TypeError` on unsubscriptable values). -/
def pyIndex0 : J → Except PyErr J
  | .s str =>
    match str.data with
    | [] => .error .indexError
    | c :: _ => .ok (.s (String.mk [c]))
  | .arr [] => .error .indexError
  | .arr (x :: _) => .ok x
  | .obj _ => .error .keyError
  | _ => .error .typeError

/-- The `except TypeError` handler of `parse_date`:
`date = arrow.get(date_str[0]).datetime`.  Exceptions raised here are not
caught by the surrounding `try` and propagate to the caller. -/
def parse_date_on_first (arrow_get : J → Except PyErr J) (date_str : J) :
    Except PyErr J :=
  match pyIndex0 date_str with
  | .ok v0 =>
    match arrow_get v0 with
    | .ok d => .ok d
    | .error e => .error e
  | .error e => .error e

/-- `parse_date(date_str)` (elastic.py:25-38).  Falsy input returns
`None`; otherwise `ciso8601.parse_datetime` is tried and, when it yields
a falsy result, `arrow.get` on the whole value; a `TypeError` from either
switches to `arrow.get(date_str[0])`, a `ParserError` from inside the
`try` returns `None`, and any other exception propagates. -/
def parse_date (ciso_parse : J → Except PyErr J) (arrow_get : J → Except PyErr J)
    (date_str : J) : Except PyErr J :=
  if !pyTruthy date_str then .ok J.null
  else
    match ciso_parse date_str with
    | .ok date =>
      if !pyTruthy date then
        match arrow_get date_str with
        | .ok d => .ok d
        | .error .typeError => parse_date_on_first arrow_get date_str
        | .error .parserError => .ok J.null
        | .error e => .error e
      else .ok date
    | .error .typeError => parse_date_on_first arrow_get date_str
    | .error .parserError => .ok J.null
    | .error e => .error e

/-- `get_dates(schema)` (elastic.py:41-48): the two audit timestamp
fields (`config.LAST_UPDATED = '_updated'`, `config.DATE_CREATED =
'_created'`) followed by every schema field whose `type` is `datetime`. -/
def get_dates (schema : List (String × J)) : List String :=
  ["_updated", "_created"] ++ schema.filterMap (fun fs =>
    match (fs.2).get "type" with
    | some (J.s t) => if t = "datetime" then some fs.1 else none
    | _ => none)

/-- `format_doc(hit, schema, dates)` (elastic.py:51-63): take `_source`,
default `_id` / `_type` from the hit, inject the highlight side channel,
then parse every date-typed field present in the document.  A
`parse_date` exception propagates (`Except.error`). -/
def format_doc (ciso_parse arrow_get : J → Except PyErr J) (hit : J)
    (dates : List String) : Except PyErr J := do
  let doc := (hit.get "_source").getD (J.obj [])
  let doc := doc.setdefault "_id" (hit.getd "_id")
  let doc := doc.setdefault "_type" (hit.getd "_type")
  let doc := if pyTruthy (hit.getd "highlight") then
      doc.set "es_highlight" (hit.getd "highlight")
    else doc
  dates.foldlM (fun d key =>
    if d.hasKey key then do
      let parsed ← parse_date ciso_parse arrow_get (d.getd key)
      return d.set key parsed
    else
      return d) doc

/-- Search results cursor (elastic.py:110-137): keeps the raw envelope
and the normalized documents. -/
structure ElasticCursor where
  hits : J
  docs : List J
  deriving Repr

/-- `ElasticCursor.no_hits`. -/
def no_hits : J := J.obj [("hits", J.obj [("total", J.n 0), ("hits", J.arr [])])]

/-- `ElasticCursor(hits, docs)`: a falsy envelope is replaced by
`no_hits`, falsy docs by the empty list. -/
def elasticCursor (hits : J) (docs : List J) : ElasticCursor :=
  { hits := if pyTruthy hits then hits else no_hits,
    docs := docs }

/-- `cursor.count()` (elastic.py:128-130):
`int(self.hits.get('hits', {}).get('total', '0'))` — read from the raw
envelope, never from `len(docs)`.  `int()` of a non-numeric total raises,
modelled as `Except.error`. -/
def ElasticCursor.count (c : ElasticCursor) : Except PyErr Int :=
  match pyInt ((((c.hits.get "hits").getD (J.obj [])).get "total").getD (J.s "0")) with
  | some k => .ok k
  | none => .error .typeError

/-- `hits.get('hits', {}).get('hits', [])`: the list of raw hits in a
response envelope. -/
def hits_list (hits : J) : List J :=
  match ((hits.get "hits").getD (J.obj [])).get "hits" with
  | some (J.arr l) => l
  | _ => []

/-- `Elastic._parse_hits(hits, resource)` (elastic.py:759-769): normalize
every raw hit of `hits['hits']['hits']` with `format_doc` and wrap the
envelope and documents in a cursor.  A `format_doc` exception
propagates. -/
def parse_hits (ciso_parse arrow_get : J → Except PyErr J) (hits : J)
    (schema : List (String × J)) : Except PyErr ElasticCursor :=
  match (hits_list hits).mapM (fun h => format_doc ciso_parse arrow_get h (get_dates schema)) with
  | .ok docs => .ok (elasticCursor hits docs)
  | .error e => .error e

/-!
### Engine errors and `find`'s error handling (elastic.py lines 91-93, 544-554)
-/

/-- Transport-level failures of the engine client relevant to the layer:
`RequestError` (status code + error string), `NotFoundError`, and the
remaining `TransportError`s. -/
inductive EngineError where
  | requestError (status : Int) (error : String)
  | notFound
  | transportError (error : String)
  deriving Repr, DecidableEq

/-- What `find` can raise: the layer's own `InvalidSearchString`, or the
engine failure passed through unchanged. -/
inductive FindErr where
  | invalidSearchString
  | engine (e : EngineError)
  deriving Repr, DecidableEq

/-- The `try/except` around the search call in `find`
(elastic.py:544-552): a 400 `RequestError` mentioning
"No mapping found for" becomes an empty envelope, a 400 mentioning
"SearchParseException" raises `InvalidSearchString`, and every other
failure is re-raised unchanged. -/
def find_search (res : Except EngineError J) : Except FindErr J :=
  match res with
  | .ok hits => .ok hits
  | .error e =>
    match e with
    | .requestError status error =>
      if status == 400 && strContains error "No mapping found for" then
        .ok (J.obj [])
      else if status == 400 && strContains error "SearchParseException" then
        .error .invalidSearchString
      else
        .error (.engine e)
    | other => .error (.engine other)

/-!
### Index resolution and app configuration (elastic.py lines 692-708,
710-726, 819-886)
-/

/-- The per-resource slice of `config.DOMAIN[resource]` that index and
config resolution read: the datasource `source` alias and the optional
`elastic_prefix` connection-prefix override. -/
structure DomainConfig where
  source : Option String := none
  elastic_px : Option String := none

/-- The application configuration the claims exercise.
`indexes_config` maps a connection prefix `px` to the
`<px>_INDEXES` override table (absent key = config value `None`);
`retry_on_conflict_config` distinguishes an absent
`ELASTICSEARCH_RETRY_ON_CONFLICT` key (`none`, so the default `5`
applies) from a present value that may itself be `None` (`some none`). -/
structure App where
  index_prefix_setting : String := ""
  domain : List (String × DomainConfig) := []
  indexes_config : List (String × List (String × String)) := []
  retry_on_conflict_config : Option (Option Int) := none

/-- `resource.replace(pat, '')` for a non-empty pattern. -/
def pyStripAll (s pat : String) : String :=
  if pat = "" then s else String.join (s.splitOn pat)

/-- `Elastic._resource_prefix(resource)` (elastic.py:839-849): start from
`ELASTICSEARCH`, strip the global index prefix from the resource name,
and use the resource's `elastic_prefix` when it is set and truthy.  (A
resource missing from the domain raises a `KeyError` in Python; the
claims only exercise declared resources, so the lookup miss keeps the
default here.) -/
def resource_px (app : App) (resource : String) : String :=
  let resource :=
    if app.index_prefix_setting ≠ "" then pyStripAll resource app.index_prefix_setting
    else resource
  if resource ≠ "" then
    match app.domain.lookup resource with
    | some dc =>
      match dc.elastic_px with
      | some p => if p ≠ "" then p else "ELASTICSEARCH"
      | none => "ELASTICSEARCH"
    | none => "ELASTICSEARCH"
  else "ELASTICSEARCH"

/-- `Elastic._resource_config(resource, 'INDEXES') or {}`
(elastic.py:851-854 with elastic.py:827): the `<px>_INDEXES` override
table, empty when unset. -/
def resource_config_indexes (app : App) (resource : String) :
    List (String × String) :=
  ((app.indexes_config).lookup (resource_px app resource)).getD []

/-- `Elastic._get_index_prefix(index)` (elastic.py:856-870): prepend the
global prefix when both the index name and the prefix are truthy. -/
def get_prefixed_index (app : App) (index : String) : String :=
  if index ≠ "" && app.index_prefix_setting ≠ "" then
    app.index_prefix_setting ++ index
  else index

/-- `datasource[0]` as produced by eve for `get_datasource`:
`datasource.get('source', resource)`. -/
def datasource_source (app : App) (resource : String) : String :=
  match app.domain.lookup resource with
  | some dc => (dc.source).getD resource
  | none => resource

/-- `Elastic._resource_index(resource)` (elastic.py:819-829): look the
datasource source name up in the override table, defaulting to the
querying resource's own prefixed name. -/
def resource_index (app : App) (resource : String) : String :=
  let source := datasource_source app resource
  let indexes := resource_config_indexes app resource
  let default_index := get_prefixed_index app resource
  (indexes.lookup source).getD default_index

/-!
### Document operations (elastic.py lines 692-726, 787-807, 884-886)
-/

/-- `Elastic._get_retry_on_conflict()` (elastic.py:884-886):
`config.get('ELASTICSEARCH_RETRY_ON_CONFLICT', 5)` — the Python value is
`5` when the key is absent, otherwise whatever is stored (possibly
`None`, modelled `none`). -/
def get_retry_on_conflict (app : App) : Option Int :=
  match app.retry_on_conflict_config with
  | none => some 5
  | some v => v

/-- Truthiness of the retry count (`if self._get_retry_on_conflict():`). -/
def retryTruthy : Option Int → Bool
  | none => false
  | some k => k ≠ 0

/-- `Elastic.get_parent_id(document)` (elastic.py:791-801): the `parent`
entry of a truthy `join_field`, else `None`. -/
def get_parent_id (document : J) : J :=
  let join_field := document.getd "join_field"
  if pyTruthy join_field && join_field.hasKey "parent" then join_field.getd "parent"
  else J.null

/-- The keyword arguments and body that `Elastic.update` / `replace`
hand to the engine client. -/
structure EngineCall where
  index : String
  refresh : Bool
  retry_on_conflict : Option Int
  routing : Option J
  body : J
  deriving Repr

/-- `Elastic.update(resource, id_, updates)` (elastic.py:692-700): attach
the truthy retry count, strip `_id` / `_type` from the payload, apply
parent routing, and send `{'doc': updates}`. -/
def es_update (app : App) (resource : String) (updates : J) : EngineCall :=
  let retry := get_retry_on_conflict app
  let retry_arg := if retryTruthy retry then retry else none
  let updates := (updates.pop "_id").pop "_type"
  let routing := get_parent_id updates
  { index := resource_index app resource,
    refresh := true,
    retry_on_conflict := retry_arg,
    routing := if pyTruthy routing then some routing else none,
    body := J.obj [("doc", updates)] }

/-- `Elastic.replace(resource, id_, document)` (elastic.py:702-708): same
stripping and routing, whole document as the body of an index call. -/
def es_replace (app : App) (resource : String) (document : J) : EngineCall :=
  let document := (document.pop "_id").pop "_type"
  let routing := get_parent_id document
  { index := resource_index app resource,
    refresh := true,
    retry_on_conflict := none,
    routing := if pyTruthy routing then some routing else none,
    body := document }

/-- The observable outcome of `Elastic.remove`: the engine response
returned, the quiet `None` return, the *returned* (not raised)
`ValueError` object, or a propagated engine exception. -/
inductive RemoveOutcome where
  | result (r : J)
  | noneResult
  | valueError (msg : String)
  | raised (e : EngineError)
  deriving Repr

/-- `Elastic.remove(resource, lookup)` (elastic.py:710-726): only a
truthy `lookup['_id']` triggers a delete; `NotFoundError` is swallowed
into a `None` return; without a usable identifier a `ValueError` object
is returned, never raised. -/
def remove (engine_delete : J → Except EngineError J) (lookup : J) : RemoveOutcome :=
  if pyTruthy lookup then
    if pyTruthy (lookup.getd "_id") then
      match engine_delete (lookup.getd "_id") with
      | .ok r => .result r
      | .error .notFound => .noneResult
      | .error e => .raised e
    else .valueError "there must be lookup._id specified"
  else .valueError "there must be lookup._id specified"

/-!
### Concrete fixtures used by counterexamples and witnesses
-/

/-- A resource-level static filter, as in the test domain
(`items_with_description.elastic_filter`). -/
def filterE : J := J.obj [("exists", J.obj [("field", J.s "description")])]

/-- A raw `source` override filter, as in `test_resource_filter`. -/
def filterF : J := J.obj [("term", J.obj [("uri", J.s "bar")])]

/-- Source config with a static resource filter. -/
def cfgC1 : SourceConfig := { elastic_filter := filterE }

/-- Request carrying `source={"query": {"filter": filterF}}`. -/
def reqC1 : Req :=
  { args := some { source := some (J.obj [("query", J.obj [("filter", filterF)])]) } }

/-- A `ciso8601.parse_datetime` behaviour: raises `TypeError` on a list,
parses any other value. -/
def cisoC5 : J → Except PyErr J := fun v =>
  match v with
  | .arr _ => .error .typeError
  | _ => .ok (J.date 1)

/-- An `arrow.get` behaviour that always fails to parse. -/
def arrowC5 : J → Except PyErr J := fun _ => .error .parserError

/-- Domain of `test_elastic.py`: `items_foo_default_index` declares
`source: items_foo`; no index override table, no global prefix. -/
def appC3 : App :=
  { domain := [("items_foo_default_index", { source := some "items_foo" }),
               ("items_foo", {})] }

/-- Same domain with an explicit `ELASTICSEARCH_INDEXES` entry for the
source resource. -/
def appC3w : App :=
  { domain := [("items_foo_default_index", { source := some "items_foo" }),
               ("items_foo", {})],
    indexes_config := [("ELASTICSEARCH", [("items_foo", "items_foo_idx")])] }

/-- A raw response envelope declaring total 3 while returning one hit. -/
def envC6 : J :=
  J.obj [("hits", J.obj [("total", J.n 3),
                         ("hits", J.arr [J.obj [("_id", J.s "x"),
                                                ("_source", J.obj [("uri", J.s "u")])]])])]

/-- The document `format_doc` produces for the single hit of `envC6`
with an empty schema (both audit dates absent from the source). -/
def docC6 : J := J.obj [("uri", J.s "u"), ("_id", J.s "x"), ("_type", J.null)]

/-- A parser oracle that accepts everything (never consulted in the
witnesses that use it on date-free documents). -/
def okOracle : J → Except PyErr J := fun _ => .ok (J.date 0)

/-- An update payload carrying the identifier and type keys. -/
def updW : J := J.obj [("_id", J.s "1"), ("_type", J.s "items"), ("uri", J.s "bar")]

/-!
## Lemmas about the embedded dict operations
-/

theorem lookupEntry_setEntry_self (es : List (String × J)) (k : String) (v : J) :
    lookupEntry (setEntry es k v) k = some v := by
  induction es with
  | nil => simp [setEntry, lookupEntry]
  | cons e rest ih =>
    by_cases h : e.1 = k
    · simp [setEntry, h, lookupEntry]
    · simp [setEntry, h, lookupEntry, ih]

theorem lookupEntry_setEntry_ne (es : List (String × J)) (k k' : String) (v : J)
    (h : k' ≠ k) : lookupEntry (setEntry es k v) k' = lookupEntry es k' := by
  induction es with
  | nil => simp [setEntry, lookupEntry, Ne.symm h]
  | cons e rest ih =>
    by_cases he : e.1 = k
    · simp [setEntry, he, lookupEntry, Ne.symm h]
    · simp [setEntry, he, lookupEntry, ih]

theorem J.get_set_self (o : J) (k : String) (v : J) (h : o.isObj = true) :
    (o.set k v).get k = some v := by
  cases o <;> simp [J.isObj] at h
  simp [J.set, J.get, lookupEntry_setEntry_self]

theorem J.get_set_ne (o : J) (k k' : String) (v : J) (h : k' ≠ k) :
    (o.set k v).get k' = o.get k' := by
  cases o <;> simp [J.set, J.get]
  exact lookupEntry_setEntry_ne _ _ _ _ h

theorem J.isObj_set (o : J) (k : String) (v : J) : (o.set k v).isObj = o.isObj := by
  cases o <;> simp [J.set, J.isObj]

theorem J.get_setdefault_ne (o : J) (k k' : String) (v : J) (h : k' ≠ k) :
    (o.setdefault k v).get k' = o.get k' := by
  unfold J.setdefault
  by_cases hk : o.hasKey k = true <;> simp [hk, J.get_set_ne _ _ _ _ h]

theorem J.isObj_setdefault (o : J) (k : String) (v : J) :
    (o.setdefault k v).isObj = o.isObj := by
  unfold J.setdefault
  by_cases hk : o.hasKey k = true <;> simp [hk, J.isObj_set]

theorem J.get_pop_self (o : J) (k : String) : (o.pop k).get k = none := by
  cases o <;> simp [J.pop, J.get]
  rename_i es
  induction es with
  | nil => simp [lookupEntry]
  | cons e rest ih =>
    by_cases he : e.1 = k
    · simpa [List.filter_cons, he] using ih
    · simpa [List.filter_cons, he, lookupEntry] using ih

theorem J.get_pop_ne (o : J) (k k' : String) (h : k' ≠ k) :
    (o.pop k).get k' = o.get k' := by
  cases o <;> simp [J.pop, J.get]
  rename_i es
  induction es with
  | nil => simp
  | cons e rest ih =>
    by_cases he : e.1 = k
    · have hne : e.1 ≠ k' := by rw [he]; exact Ne.symm h
      simp [List.filter_cons, he, lookupEntry, hne, ih, Ne.symm h]
    · by_cases he' : e.1 = k'
      · simp [List.filter_cons, he, lookupEntry, he', h]
      · simp [List.filter_cons, he, lookupEntry, he', ih]

theorem J.hasKey_eq_isSome (o : J) (k : String) :
    o.hasKey k = (o.get k).isSome := by
  cases o <;> simp [J.hasKey, J.get]
  rename_i es
  induction es with
  | nil => simp [lookupEntry]
  | cons e rest ih =>
    by_cases he : e.1 = k
    · simp [lookupEntry, he]
    · simp [lookupEntry, he, ih]

theorem pyTruthy_of_get_some (o : J) (k : String) (v : J) (h : o.get k = some v) :
    pyTruthy o = true := by
  cases o <;> simp [J.get] at h
  rename_i es
  cases es with
  | nil => simp [lookupEntry] at h
  | cons e rest => simp [pyTruthy]

theorem pyTruthy_getd_some (o : J) (k : String) (h : pyTruthy (o.getd k) = true) :
    pyTruthy o = true := by
  cases hget : o.get k with
  | none => rw [J.getd, hget] at h; simp [pyTruthy] at h
  | some v => exact pyTruthy_of_get_some _ _ _ hget

/-!
## Claim C6 — cursor count reads the envelope total
-/

/-- Claim C6: for every cursor built from a raw response envelope,
`count()` returns the numeric total declared in the envelope,
independent of how many hit records were returned and normalized. -/
theorem C6_cursor_count_reads_total (ciso_parse arrow_get : J → Except PyErr J)
    (env : J) (schema : List (String × J)) (c : ElasticCursor) (t : Int)
    (h1 : parse_hits ciso_parse arrow_get env schema = .ok c)
    (h2 : (env.getd "hits").get "total" = some (J.n t)) :
    c.count = .ok t := by
  obtain ⟨hv, hhv⟩ : ∃ hv, env.get "hits" = some hv := by
    cases hget : env.get "hits" with
    | none => rw [J.getd, hget] at h2; simp [J.get] at h2
    | some hv => exact ⟨hv, rfl⟩
  have htot : hv.get "total" = some (J.n t) := by
    rw [J.getd, hhv] at h2; exact h2
  have htru : pyTruthy env = true := pyTruthy_of_get_some _ _ _ hhv
  simp only [parse_hits] at h1
  split at h1
  · cases h1
    unfold ElasticCursor.count elasticCursor
    simp [htru, hhv, htot, pyInt]
  · cases h1

/-- Witness for C6 on the envelope with total 3 and one returned hit:
the cursor reports 3, not 1. -/
theorem C6_cursor_count_reads_total_witness :
    parse_hits okOracle okOracle envC6 [] = .ok (elasticCursor envC6 [docC6]) ∧
    (elasticCursor envC6 [docC6]).count = .ok 3 ∧
    (elasticCursor envC6 [docC6]).docs.length = 1 :=
  ⟨rfl,
   C6_cursor_count_reads_total okOracle okOracle envC6 [] (elasticCursor envC6 [docC6]) 3 rfl rfl,
   rfl⟩

/-!
## Claim C7 — remove: idempotent delete, error value without identifier
-/

/-- Claim C7: `remove` with a lookup whose identifier hits a nonexistent
document swallows the engine not-found error and returns `None`; a
lookup without a usable identifier makes `remove` return (not raise) a
`ValueError` object. -/
theorem C7_remove_semantics (engine_delete : J → Except EngineError J) (lookup : J) :
    (pyTruthy (lookup.getd "_id") = true →
      engine_delete (lookup.getd "_id") = .error .notFound →
      remove engine_delete lookup = .noneResult) ∧
    (pyTruthy (lookup.getd "_id") = false →
      remove engine_delete lookup = .valueError "there must be lookup._id specified") := by
  constructor
  · intro hid hdel
    have hlk : pyTruthy lookup = true := pyTruthy_getd_some _ _ hid
    unfold remove
    simp [hlk, hid, hdel]
  · intro hid
    unfold remove
    by_cases hlk : pyTruthy lookup = true
    · simp [hlk, hid]
    · simp [hlk]

/-- Witness for C7: deleting an unknown id returns `None`; a lookup with
no `_id` returns the `ValueError` value. -/
theorem C7_remove_semantics_witness :
    remove (fun _ => .error .notFound) (J.obj [("_id", J.s "notfound")]) = .noneResult ∧
    remove (fun _ => .error .notFound) (J.obj [("name", J.s "foo")])
      = .valueError "there must be lookup._id specified" :=
  ⟨(C7_remove_semantics (fun _ => .error .notFound) (J.obj [("_id", J.s "notfound")])).1 rfl rfl,
   (C7_remove_semantics (fun _ => .error .notFound) (J.obj [("name", J.s "foo")])).2 rfl⟩

/-!
## Claim C8 — update/replace strip `_id` and `_type` from the payload
-/

/-- Claim C8: both `update` and `replace` remove `_id` and `_type` from
the document payload before it is sent to the engine, and pass every
other field through unchanged. -/
theorem C8_update_replace_strip (app : App) (resource : String) (updates document : J) :
    (((es_update app resource updates).body.getd "doc").hasKey "_id" = false) ∧
    (((es_update app resource updates).body.getd "doc").hasKey "_type" = false) ∧
    (∀ k, k ≠ "_id" → k ≠ "_type" →
      ((es_update app resource updates).body.getd "doc").get k = updates.get k) ∧
    ((es_replace app resource document).body.hasKey "_id" = false) ∧
    ((es_replace app resource document).body.hasKey "_type" = false) ∧
    (∀ k, k ≠ "_id" → k ≠ "_type" →
      (es_replace app resource document).body.get k = document.get k) := by
  have hdoc : (es_update app resource updates).body.getd "doc"
      = (updates.pop "_id").pop "_type" := rfl
  have hbody : (es_replace app resource document).body
      = (document.pop "_id").pop "_type" := rfl
  have hid : ∀ o : J, ((o.pop "_id").pop "_type").get "_id" = none := fun o => by
    rw [J.get_pop_ne _ _ _ (by decide), J.get_pop_self]
  have hty : ∀ o : J, ((o.pop "_id").pop "_type").get "_type" = none := fun o =>
    J.get_pop_self _ _
  have hother : ∀ (o : J) k, k ≠ "_id" → k ≠ "_type" →
      ((o.pop "_id").pop "_type").get k = o.get k := fun o k h1 h2 => by
    rw [J.get_pop_ne _ _ _ h2, J.get_pop_ne _ _ _ h1]
  refine ⟨?_, ?_, ?_, ?_, ?_, ?_⟩
  · rw [hdoc, J.hasKey_eq_isSome, hid]; rfl
  · rw [hdoc, J.hasKey_eq_isSome, hty]; rfl
  · intro k h1 h2; rw [hdoc, hother _ _ h1 h2]
  · rw [hbody, J.hasKey_eq_isSome, hid]; rfl
  · rw [hbody, J.hasKey_eq_isSome, hty]; rfl
  · intro k h1 h2; rw [hbody, hother _ _ h1 h2]

/-- Witness for C8 on a payload carrying `_id`, `_type` and `uri`. -/
theorem C8_update_replace_strip_witness :
    ((es_update {} "items" updW).body.getd "doc").hasKey "_id" = false ∧
    ((es_update {} "items" updW).body.getd "doc").hasKey "_type" = false ∧
    ((es_update {} "items" updW).body.getd "doc").get "uri" = updW.get "uri" ∧
    updW.get "uri" = some (J.s "bar") ∧
    (es_replace {} "items" updW).body.get "uri" = updW.get "uri" :=
  ⟨(C8_update_replace_strip {} "items" updW updW).1,
   (C8_update_replace_strip {} "items" updW updW).2.1,
   (C8_update_replace_strip {} "items" updW updW).2.2.1 "uri" (by decide) (by decide),
   rfl,
   (C8_update_replace_strip {} "items" updW updW).2.2.2.2.2 "uri" (by decide) (by decide)⟩

/-!
## Claim C9 — conflict-retry configuration
-/

/-- Claim C9: a falsy configured conflict-retry count (stored `None` or
`0`) omits the retry parameter from the engine update call entirely; a
positive count is attached verbatim; an absent configuration key means
the default count 5. -/
theorem C9_retry_on_conflict (app : App) (resource : String) (updates : J) :
    (app.retry_on_conflict_config = none →
      (es_update app resource updates).retry_on_conflict = some 5) ∧
    (app.retry_on_conflict_config = some none →
      (es_update app resource updates).retry_on_conflict = none) ∧
    (app.retry_on_conflict_config = some (some 0) →
      (es_update app resource updates).retry_on_conflict = none) ∧
    (∀ k : Int, 0 < k → app.retry_on_conflict_config = some (some k) →
      (es_update app resource updates).retry_on_conflict = some k) := by
  refine ⟨?_, ?_, ?_, ?_⟩
  · intro h; simp [es_update, get_retry_on_conflict, retryTruthy, h]
  · intro h; simp [es_update, get_retry_on_conflict, retryTruthy, h]
  · intro h; simp [es_update, get_retry_on_conflict, retryTruthy, h]
  · intro k hk h
    simp [es_update, get_retry_on_conflict, retryTruthy, h, hk.ne']

/-- Witness for C9: default 5, stored `None` and `0` omitted, `1`
attached verbatim. -/
theorem C9_retry_on_conflict_witness :
    (es_update {} "items" (J.obj [])).retry_on_conflict = some 5 ∧
    (es_update { retry_on_conflict_config := some none } "items" (J.obj [])).retry_on_conflict = none ∧
    (es_update { retry_on_conflict_config := some (some 0) } "items" (J.obj [])).retry_on_conflict = none ∧
    (es_update { retry_on_conflict_config := some (some 1) } "items" (J.obj [])).retry_on_conflict = some 1 :=
  ⟨(C9_retry_on_conflict {} "items" (J.obj [])).1 rfl,
   (C9_retry_on_conflict { retry_on_conflict_config := some none } "items" (J.obj [])).2.1 rfl,
   (C9_retry_on_conflict { retry_on_conflict_config := some (some 0) } "items" (J.obj [])).2.2.1 rfl,
   (C9_retry_on_conflict { retry_on_conflict_config := some (some 1) } "items" (J.obj [])).2.2.2 1 one_pos rfl⟩

/-!
## Claim C3 — index resolution for aliased resources (corrected)
-/

/-- Claim C3 counterexample: `items_foo_default_index` declares
`source: items_foo`, yet without an override-table entry its resolved
index is its own name, not the index of `items_foo`. -/
theorem C3_resource_index_cex :
    datasource_source appC3 "items_foo_default_index" = "items_foo" ∧
    resource_index appC3 "items_foo_default_index" = "items_foo_default_index" ∧
    resource_index appC3 "items_foo" = "items_foo" ∧
    resource_index appC3 "items_foo_default_index" ≠ resource_index appC3 "items_foo" :=
  ⟨rfl, rfl, rfl, by decide⟩

/-- Claim C3 (amended): index resolution consults the explicit override
table keyed by the datasource source-resource name and returns its entry
verbatim when present; otherwise it falls back to the querying
resource's own (possibly prefixed) name — even when the resource aliases
another resource. -/
theorem C3_resource_index_resolution (app : App) (resource : String) :
    (∀ v, ((resource_config_indexes app resource).lookup
        (datasource_source app resource)) = some v →
      resource_index app resource = v) ∧
    (((resource_config_indexes app resource).lookup
        (datasource_source app resource)) = none →
      resource_index app resource = get_prefixed_index app resource) := by
  constructor
  · intro v h; simp [resource_index, h]
  · intro h; simp [resource_index, h]

/-- Witness for C3: with an override entry for the source resource the
entry wins; without one the resource's own name is used. -/
theorem C3_resource_index_resolution_witness :
    resource_index appC3w "items_foo_default_index" = "items_foo_idx" ∧
    resource_index appC3 "items_foo_default_index"
      = get_prefixed_index appC3 "items_foo_default_index" :=
  ⟨(C3_resource_index_resolution appC3w "items_foo_default_index").1 "items_foo_idx" rfl,
   (C3_resource_index_resolution appC3 "items_foo_default_index").2 rfl⟩

/-!
## Claim C2 — free-text clause construction (corrected)
-/

/-- Claim C2 counterexample: the non-phrase clause carries no
default-field key at all — the `df` parameter (here `body`) is ignored,
because the line adding it is commented out in the source. -/
theorem C2_query_string_cex :
    build_query_string "foo" (some "body") "OR"
      = J.obj [("query_string", J.obj [("query", J.s "foo"),
          ("default_operator", J.s "OR")])] ∧
    ((build_query_string "foo" (some "body") "OR").getd "query_string").hasKey
      "default_field" = false :=
  ⟨rfl, rfl⟩

/-- Claim C2 (amended): a double-quoted term becomes a `match_phrase` on
the catch-all field with the quotes stripped; any other term becomes a
`query_string` clause carrying exactly the term and the declared
operator (default `OR` in `find`), with no default-field key; the clause
is placed at the head of the must list. -/
theorem C2_query_string_clause (q : String) (default_field : Option String)
    (default_operator : String) (args : Args) (sub : J) :
    (is_phrase_search q = true →
      build_query_string q default_field default_operator
        = J.obj [("match_phrase", J.obj [("all", J.s (get_phrase q))])]) ∧
    (is_phrase_search q = false →
      build_query_string q default_field default_operator
        = J.obj [("query_string", J.obj [("query", J.s q),
            ("default_operator", J.s default_operator)])]) ∧
    (qTruthy args.q = true →
      (find_must_filter args sub).head? = some (build_query_string ((args.q).getD "")
        (some ((args.df).getD "all")) ((args.default_operator).getD "OR"))) := by
  refine ⟨?_, ?_, ?_⟩
  · intro h; simp [build_query_string, h]
  · intro h; simp [build_query_string, h]
  · intro h; simp [find_must_filter, h]

/-- Witness for C2: quoted phrase, plain term, and the head of the must
list for `q=test`. -/
theorem C2_query_string_clause_witness :
    build_query_string "\"foo bar\"" (some "all") "OR"
      = J.obj [("match_phrase", J.obj [("all", J.s "foo bar")])] ∧
    build_query_string "foo" none "AND"
      = J.obj [("query_string", J.obj [("query", J.s "foo"),
          ("default_operator", J.s "AND")])] ∧
    (find_must_filter { q := some "test" } J.null).head?
      = some (build_query_string "test" (some "all") "OR") :=
  ⟨(C2_query_string_clause "\"foo bar\"" (some "all") "OR" {} J.null).1 rfl,
   (C2_query_string_clause "foo" none "AND" {} J.null).2.1 rfl,
   (C2_query_string_clause "test" (some "all") "OR" { q := some "test" } J.null).2.2 rfl⟩

/-!
## Claim C4 — find error handling
-/

/-- Claim C4: a 400 request error mentioning "No mapping found for"
yields an empty cursor instead of raising; a 400 mentioning
"SearchParseException" raises the distinct `InvalidSearchString`; every
other transport failure propagates unchanged. -/
theorem C4_find_error_handling (status : Int) (error : String)
    (ciso_parse arrow_get : J → Except PyErr J) (schema : List (String × J)) :
    (status = 400 → strContains error "No mapping found for" = true →
      find_search (.error (.requestError status error)) = .ok (J.obj []) ∧
      parse_hits ciso_parse arrow_get (J.obj []) schema
        = .ok (elasticCursor (J.obj []) []) ∧
      (elasticCursor (J.obj []) []).count = .ok 0 ∧
      (elasticCursor (J.obj []) []).docs = []) ∧
    (status = 400 → strContains error "No mapping found for" = false →
      strContains error "SearchParseException" = true →
      find_search (.error (.requestError status error)) = .error .invalidSearchString) ∧
    ((status ≠ 400 ∨ (strContains error "No mapping found for" = false ∧
        strContains error "SearchParseException" = false)) →
      find_search (.error (.requestError status error))
        = .error (.engine (.requestError status error))) ∧
    (find_search (.error .notFound) = .error (.engine .notFound)) ∧
    (∀ msg, find_search (.error (.transportError msg))
      = .error (.engine (.transportError msg))) ∧
    (∀ hits, find_search (.ok hits) = .ok hits) := by
  refine ⟨?_, ?_, ?_, rfl, fun msg => rfl, fun hits => rfl⟩
  · intro h400 hmap
    subst h400
    exact ⟨by simp [find_search, hmap], rfl, rfl, rfl⟩
  · intro h400 hmap hparse
    subst h400
    simp [find_search, hmap, hparse]
  · intro h
    rcases h with h | ⟨hmap, hparse⟩
    · have : (status == 400) = false := by simpa using h
      simp [find_search, this]
    · simp [find_search, hmap, hparse]

/-- Witness for C4 at concrete error strings and statuses. -/
theorem C4_find_error_handling_witness :
    find_search (.error (.requestError 400
        "No mapping found for [firstcreated] in order to sort on")) = .ok (J.obj []) ∧
    (elasticCursor (J.obj []) []).count = .ok 0 ∧
    find_search (.error (.requestError 400
        "SearchParseException: failed to parse search source"))
      = .error .invalidSearchString ∧
    find_search (.error (.requestError 404 "index missing"))
      = .error (.engine (.requestError 404 "index missing")) :=
  ⟨((C4_find_error_handling 400 "No mapping found for [firstcreated] in order to sort on"
      okOracle okOracle []).1 rfl rfl).1,
   ((C4_find_error_handling 400 "No mapping found for [firstcreated] in order to sort on"
      okOracle okOracle []).1 rfl rfl).2.2.1,
   (C4_find_error_handling 400 "SearchParseException: failed to parse search source"
      okOracle okOracle []).2.1 rfl rfl rfl,
   (C4_find_error_handling 404 "index missing" okOracle okOracle []).2.2.1
     (Or.inl (by decide))⟩

/-!
## Claim C10 — totality of the per-call toggle predicates
-/

/-- Claim C10: the toggle predicates are total over every request shape
and never propagate an exception: each returns a (falsy) result on
absent parameters, non-numeric values, and whatever the JSON parser does
with malformed input.  The characterizations below pin down exactly when
each predicate is truthy; every other input yields `False`. -/
theorem C10_toggle_predicates (auto_aggregations : Bool) (req : Req)
    (json_loads : J → Except PyErr J) :
    (should_aggregate auto_aggregations req = true ↔
      (auto_aggregations = true ∨ ∃ args v k, req.args = some args ∧
        args.aggregations = some v ∧ pyInt v = some k ∧ k ≠ 0)) ∧
    (should_highlight req = true ↔
      ∃ args v k, req.args = some args ∧ args.es_highlight = some v ∧
        pyInt v = some k ∧ k ≠ 0) ∧
    (pyTruthy (should_project json_loads req) = true ↔
      ∃ args v j, req.args = some args ∧ args.projections = some v ∧
        json_loads v = .ok j ∧ pyTruthy j = true) := by
  refine ⟨?_, ?_, ?_⟩
  · by_cases hauto : auto_aggregations = true
    · simp [should_aggregate, hauto]
    · cases hargs : req.args with
      | none => simp [should_aggregate, hauto, hargs]
      | some args =>
        cases hagg : args.aggregations with
        | none => simp [should_aggregate, hauto, hargs, hagg]
        | some v =>
          cases hint : pyInt v with
          | none => simp [should_aggregate, hauto, hargs, hagg, hint]
          | some k => simp [should_aggregate, hauto, hargs, hagg, hint]
  · cases hargs : req.args with
    | none => simp [should_highlight, hargs]
    | some args =>
      cases hagg : args.es_highlight with
      | none => simp [should_highlight, hargs, hagg]
      | some v =>
        cases hint : pyInt v with
        | none => simp [should_highlight, hargs, hagg, hint]
        | some k => simp [should_highlight, hargs, hagg, hint]
  · cases hargs : req.args with
    | none => simp [should_project, hargs, pyTruthy]
    | some args =>
      cases hproj : args.projections with
      | none => simp [should_project, hargs, hproj, pyTruthy]
      | some v =>
        cases hjl : json_loads v with
        | error e => simp [should_project, hargs, hproj, hjl, pyTruthy]
        | ok j => simp [should_project, hargs, hproj, hjl]

/-!
## Claim C5 — datetime parse fallbacks (corrected)
-/

/-- Claim C5 counterexample: with a primary parser that raises
`TypeError` on a list but accepts strings, and a secondary parser that
always fails, the claim predicts the primary parser is retried on the
first element (which would succeed) or, on total failure, the field is
set to `None` without re-raising; the code instead retries the
*secondary* parser on the first element and re-raises its failure, so
result normalization propagates the exception to the caller. -/
theorem C5_parse_date_cex :
    cisoC5 (J.s "2020-01-01") = .ok (J.date 1) ∧
    parse_date cisoC5 arrowC5 (J.arr [J.s "2020-01-01"]) = .error .parserError ∧
    format_doc cisoC5 arrowC5
      (J.obj [("_source", J.obj [("published", J.arr [J.s "2020-01-01"])])])
      ["_updated", "_created", "published"] = .error .parserError :=
  ⟨rfl, rfl, rfl⟩

/-- Claim C5 (amended): for a truthy value, a falsy primary-parse result
triggers the secondary lenient parser on the whole value, whose
`ParserError` (like one from the primary parser) yields an absent date;
a `TypeError` from the primary parser makes the code retry the
*secondary* parser on the value's first element, returning its result —
and a failure of that retry propagates to the caller instead of setting
the field to `None`. -/
theorem C5_parse_date_fallbacks (ciso_parse arrow_get : J → Except PyErr J)
    (v d : J) (e : PyErr) :
    (pyTruthy v = false → parse_date ciso_parse arrow_get v = .ok J.null) ∧
    (∀ d0, pyTruthy v = true → ciso_parse v = .ok d0 → pyTruthy d0 = true →
      parse_date ciso_parse arrow_get v = .ok d0) ∧
    (∀ d0, pyTruthy v = true → ciso_parse v = .ok d0 → pyTruthy d0 = false →
      arrow_get v = .ok d → parse_date ciso_parse arrow_get v = .ok d) ∧
    (∀ d0, pyTruthy v = true → ciso_parse v = .ok d0 → pyTruthy d0 = false →
      arrow_get v = .error .parserError →
      parse_date ciso_parse arrow_get v = .ok J.null) ∧
    (pyTruthy v = true → ciso_parse v = .error .parserError →
      parse_date ciso_parse arrow_get v = .ok J.null) ∧
    (∀ v0, pyTruthy v = true → ciso_parse v = .error .typeError → pyIndex0 v = .ok v0 →
      arrow_get v0 = .ok d → parse_date ciso_parse arrow_get v = .ok d) ∧
    (∀ v0, pyTruthy v = true → ciso_parse v = .error .typeError → pyIndex0 v = .ok v0 →
      arrow_get v0 = .error e → parse_date ciso_parse arrow_get v = .error e) := by
  refine ⟨?_, ?_, ?_, ?_, ?_, ?_, ?_⟩
  · intro h; simp [parse_date, h]
  · intro d0 hv hc hd; simp [parse_date, hv, hc, hd]
  · intro d0 hv hc hd ha; simp [parse_date, hv, hc, hd, ha]
  · intro d0 hv hc hd ha; simp [parse_date, hv, hc, hd, ha]
  · intro hv hc; simp [parse_date, hv, hc]
  · intro v0 hv hc hi ha; simp [parse_date, parse_date_on_first, hv, hc, hi, ha]
  · intro v0 hv hc hi ha; simp [parse_date, parse_date_on_first, hv, hc, hi, ha]

/-- Witness for C5 (amended), exercising every fallback branch with
concrete oracles. -/
theorem C5_parse_date_fallbacks_witness :
    parse_date cisoC5 arrowC5 (J.s "") = .ok J.null ∧
    parse_date cisoC5 arrowC5 (J.s "x") = .ok (J.date 1) ∧
    parse_date (fun _ => .ok J.null) (fun _ => .ok (J.date 7)) (J.s "x") = .ok (J.date 7) ∧
    parse_date (fun _ => .ok J.null) arrowC5 (J.s "x") = .ok J.null ∧
    parse_date cisoC5 (fun _ => .ok (J.date 9)) (J.arr [J.s "y"]) = .ok (J.date 9) ∧
    parse_date cisoC5 arrowC5 (J.arr [J.s "y"]) = .error .parserError :=
  ⟨(C5_parse_date_fallbacks cisoC5 arrowC5 (J.s "") (J.date 0) .parserError).1 rfl,
   (C5_parse_date_fallbacks cisoC5 arrowC5 (J.s "x") (J.date 0) .parserError).2.1
     (J.date 1) rfl rfl rfl,
   (C5_parse_date_fallbacks (fun _ => .ok J.null) (fun _ => .ok (J.date 7)) (J.s "x")
     (J.date 7) .parserError).2.2.1 J.null rfl rfl rfl rfl,
   (C5_parse_date_fallbacks (fun _ => .ok J.null) arrowC5 (J.s "x")
     (J.date 0) .parserError).2.2.2.1 J.null rfl rfl rfl rfl,
   (C5_parse_date_fallbacks cisoC5 (fun _ => .ok (J.date 9)) (J.arr [J.s "y"])
     (J.date 9) .parserError).2.2.2.2.2.1 (J.s "y") rfl rfl rfl rfl,
   (C5_parse_date_fallbacks cisoC5 arrowC5 (J.arr [J.s "y"])
     (J.date 0) .parserError).2.2.2.2.2.2 (J.s "y") rfl rfl rfl rfl⟩

/-!
## Claim C1 — the `bool` container (corrected)
-/

theorem find_source_step_query (source : Option J) :
    ((find_source_step source).1).get "query" = some (J.obj [("bool", J.obj [])]) ∧
    ((find_source_step source).1).isObj = true := by
  cases source with
  | none => exact ⟨rfl, rfl⟩
  | some src =>
    cases src with
    | obj es =>
      simp only [find_source_step]
      split
      · refine ⟨J.get_set_self (J.obj es) "query" (J.obj [("bool", J.obj [])]) rfl, ?_⟩
        rw [J.isObj_set]
        rfl
      · exact ⟨rfl, rfl⟩
    | null => exact ⟨rfl, rfl⟩
    | b x => exact ⟨rfl, rfl⟩
    | n x => exact ⟨rfl, rfl⟩
    | s x => exact ⟨rfl, rfl⟩
    | arr x => exact ⟨rfl, rfl⟩
    | date x => exact ⟨rfl, rfl⟩

theorem find_sort_page_query (source_config : SourceConfig) (req : Req) (q : J) :
    (find_sort_page source_config req q).get "query" = q.get "query" ∧
    (find_sort_page source_config req q).isObj = q.isObj := by
  have gsort : ∀ (qq v : J), (qq.set "sort" v).get "query" = qq.get "query" :=
    fun qq v => J.get_set_ne _ _ _ _ (by decide)
  have gsize : ∀ (qq : J) v, (qq.setdefault "size" v).get "query" = qq.get "query" :=
    fun qq v => J.get_setdefault_ne _ _ _ _ (by decide)
  have gfrom : ∀ (qq : J) v, (qq.setdefault "from" v).get "query" = qq.get "query" :=
    fun qq v => J.get_setdefault_ne _ _ _ _ (by decide)
  constructor <;>
  · simp only [find_sort_page]
    repeat' split
    all_goals
      simp [set_sort, gsort, gsize, gfrom, J.isObj_set, J.isObj_setdefault]

theorem find_post_steps_query (auto_aggregations : Bool) (source_config : SourceConfig)
    (req : Req) (q : J) :
    (find_post_steps auto_aggregations source_config req q).get "query" = q.get "query" := by
  have g1 : ∀ (qq : J) v, (qq.set "facets" v).get "query" = qq.get "query" :=
    fun qq v => J.get_set_ne _ _ _ _ (by decide)
  have g2 : ∀ (qq : J) v, (qq.set "aggs" v).get "query" = qq.get "query" :=
    fun qq v => J.get_set_ne _ _ _ _ (by decide)
  have g3 : ∀ (qq : J) v, (qq.set "highlight" v).get "query" = qq.get "query" :=
    fun qq v => J.get_set_ne _ _ _ _ (by decide)
  simp only [find_post_steps]
  repeat' split
  all_goals simp [g1, g2, g3]

theorem set_filters_from_shell (q : J) (m b : List J)
    (hq : q.get "query" = some (J.obj [("bool", J.obj [])]))
    (ho : q.isObj = true) :
    (set_filters q m b).get "query"
      = some (J.obj [("bool", bool_clause (J.arr (m.filter notNone))
          (J.arr (b.filter notNone)))]) := by
  have hgetd : q.getd "query" = J.obj [("bool", J.obj [])] := by
    simp only [J.getd, hq, Option.getD_some]
  simp only [set_filters, hgetd,
    show (J.obj [("bool", J.obj [])]).getd "filter" = J.null from rfl,
    show notNone J.null = false from rfl,
    show (J.obj [("bool", J.obj [])]).hasKey "bool" = true from rfl,
    Bool.not_true, Bool.false_and, Bool.false_eq_true, if_false]
  rw [J.get_set_self _ _ _ ho]
  simp only [bool_clause,
    show (J.obj [("bool", J.obj [])]).getd "bool" = J.obj [] from rfl]
  split
  · split
    · simp [J.set, setEntry, J.getd, J.get, lookupEntry]
    · simp [J.set, setEntry, J.getd, J.get, lookupEntry]
  · split
    · simp [J.set, setEntry, J.getd, J.get, lookupEntry]
    · simp [J.set, setEntry, J.getd, J.get, lookupEntry]

/-- Claim C1 counterexample: a find call with no free-text term, no
filters and no lookup still carries the `bool` key (as an empty object),
and a raw `source` override's `filter` is appended to the resource-level
base filter (here `filterE`) instead of replacing it. -/
theorem C1_bool_container_cex :
    findBuildQuery false {} {} J.null = J.obj [("query", J.obj [("bool", J.obj [])])] ∧
    findBuildQuery false cfgC1 reqC1 J.null
      = J.obj [("query", J.obj [("bool",
          J.obj [("filter", J.arr [filterE, filterF])])])] :=
  ⟨rfl, rfl⟩

/-- Claim C1 (amended): `find` always initializes the query body with a
`bool` container (possibly empty); the container gains a `must` key iff a
non-null must clause exists and a `filter` key iff a non-null filter
entry exists, and a raw `source` override's filter is merged into (not
substituted for) the resource-level base filters.  The replacement
behaviour of `set_filters` applies only to a `filter` clause already
present on the query body itself, which `find` never pre-populates. -/
theorem C1_find_bool_container (auto_aggregations : Bool) (source_config : SourceConfig)
    (req : Req) (sub_resource_lookup : J) :
    ((findBuildQuery auto_aggregations source_config req sub_resource_lookup).get "query"
      = some (J.obj [("bool",
          bool_clause
            (J.arr ((find_must_filter ((req.args).getD {}) sub_resource_lookup).filter notNone))
            (J.arr ((find_base_filters source_config req
                (find_source_step ((req.args).getD {}).source).2).filter notNone)))])) ∧
    (∀ (qf : J) (m b : List J), pyTruthy qf = true →
      (((set_filters (J.obj [("query", J.obj [("filter", qf)])]) m b).getd
        "query").getd "bool").getd "filter" = qf) := by
  constructor
  · obtain ⟨hq, ho⟩ := find_source_step_query ((req.args).getD {}).source
    obtain ⟨hsg, hso⟩ := find_sort_page_query source_config req
      (find_source_step ((req.args).getD {}).source).1
    have hq2 : (find_sort_page source_config req
        (find_source_step ((req.args).getD {}).source).1).get "query"
        = some (J.obj [("bool", J.obj [])]) := by rw [hsg, hq]
    have ho2 : (find_sort_page source_config req
        (find_source_step ((req.args).getD {}).source).1).isObj = true := by
      rw [hso, ho]
    have hsf := set_filters_from_shell _
      (find_must_filter ((req.args).getD {}) sub_resource_lookup)
      (find_base_filters source_config req
        (find_source_step ((req.args).getD {}).source).2) hq2 ho2
    simp only [findBuildQuery]
    rw [find_post_steps_query, hsf]
  · intro qf m b h
    have hnn : notNone qf = true := by
      cases qf <;> simp_all [pyTruthy, J.isNull, notNone]
    have hqn : qf.isNull = false := by
      cases qf <;> simp_all [J.isNull, notNone]
    by_cases hM : pyTruthy (J.arr (List.filter notNone m)) = true
    · simp [set_filters, hnn, hqn, h, hM, J.set, setEntry, J.getd, J.get, lookupEntry,
        J.hasKey, notNone]
    · simp [set_filters, hnn, hqn, h, hM, J.set, setEntry, J.getd, J.get, lookupEntry,
        J.hasKey, notNone]

/-- Witness for C1 (amended): the merged filter list for the
counterexample request, and the replacement branch of `set_filters`
exercised directly with a pre-existing `query.filter`. -/
theorem C1_find_bool_container_witness :
    (findBuildQuery false cfgC1 reqC1 J.null).get "query"
      = some (J.obj [("bool", J.obj [("filter", J.arr [filterE, filterF])])]) ∧
    (((set_filters (J.obj [("query", J.obj [("filter", filterF)])]) [] [filterE]).getd
        "query").getd "bool").getd "filter" = filterF :=
  ⟨(C1_find_bool_container false cfgC1 reqC1 J.null).1,
   (C1_find_bool_container false cfgC1 reqC1 J.null).2 filterF [] [filterE] rfl⟩

end EveElastic
